import Mathlib

/-!
# Verification of the `dnd-dmg-tracker` battle engine

A shallow embedding of the battle resolution engine of `src/battle.py`
(data model from `src/character_sheet.py`), together with theorems
settling the specification claims about it.

Modelling conventions:

* Python integers are modelled as `Int`; Python `//` (floor division) is
  `Int.fdiv`; `max(x, 0)` is `max x 0`.
* The process-wide random generator (`random.randint`) is modelled as an
  oracle: a stream `Nat → Int` together with a cursor.  Each call to
  `randint` consumes exactly one stream element.  The documented ranges
  ([1,100] for attack and defense rolls, [1,10] for initiative) become
  hypotheses of the theorems that need them.
* Interactive input (`input(...)`) is likewise an oracle stream of strings.
* `logger.info` / `logger.warning` / `logger.debug` calls are modelled as
  events appended to an observable log; one `Event` constructor per
  logger call site of the engine (the pure menu prompts of the
  interactive branches are not individually recorded).
* Python object identity: the combatants of a battle are held in the
  roster list `BattleState.combatants`; a reference to a combatant (as
  stored in an action or in `turn_order`) is modelled as its index into
  that list, so that mutation through one reference is visible through
  all of them, exactly as for Python object references.
* Python exceptions are modelled by returning `(finalState, some msg)`
  instead of `(finalState, none)`; callers short-circuit on `some`,
  which models exception propagation.
-/

set_option linter.unusedVariables false

/-- From `character_sheet.py` (`PersonalInfo`). -/
structure PersonalInfo where
  name : String
  nickname : Option String := none
  surname : Option String := none
  gender : Option String := none
  race : Option String := none
  origin_country : Option String := none
  origin_region : Option String := none
  age : Option Int := none
  height : Option Int := none
  hair_color : Option String := none
  eye_color : Option String := none
  distinctive_features : Option String := none
  character_description : Option String := none
  appearance_description : Option String := none
deriving DecidableEq

/-- From `character_sheet.py` (`CharacterRole`). -/
structure CharacterRole where
  character_class : Option String := none
  profession : Option String := none
  profession_level : Option Int := none
  profession_path : Option String := none
  status : Option String := none
  is_player_character : Bool := true
deriving DecidableEq

/-- From `character_sheet.py` (`Characteristics`). -/
structure Characteristics where
  weapon_skill : Int := 0
  ballistic_skill : Int := 0
  strength : Int := 0
  toughness : Int := 0
  initiative : Int := 0
  agility : Int := 0
  dexterity : Int := 0
  intelligence : Int := 0
  willpower : Int := 0
  fellowship : Int := 0
deriving DecidableEq

/-- From `character_sheet.py` (`Points`). -/
structure Points where
  hero_points : Int := 0
  determination_points : Int := 0
  fate_points : Int := 0
  fortune_points : Int := 0
  sin_points : Int := 0
  warp_points : Int := 0
  insanity_points : Int := 0
deriving DecidableEq

/-- From `character_sheet.py` (`Experience`). -/
structure Experience where
  current : Int := 0
  spent : Int := 0
  total : Int := 0
deriving DecidableEq

/-- From `character_sheet.py` (`Skills`). -/
structure Skills where
  basic_skills : List String := []
  advanced_skills : List String := []
  combat_skills : List String := []
deriving DecidableEq

/-- From `character_sheet.py` (`Talent`). -/
structure Talent where
  name : String
  description : Option String := none
  effects : List String := []
deriving DecidableEq

/-- From `character_sheet.py` (`Mutation`). -/
structure Mutation where
  name : String
  description : Option String := none
deriving DecidableEq

/-- From `character_sheet.py` (`Condition`). -/
structure Condition where
  name : String
  description : Option String := none
deriving DecidableEq

/-- From `character_sheet.py` (`SpecialEffect`). -/
structure SpecialEffect where
  name : String
  description : Option String := none
deriving DecidableEq

/-- From `character_sheet.py`: `EquipmentItem` and its two subclasses
`Weapon` and `Armor`.  The Python subclass hierarchy (discriminated at
runtime by `isinstance`) is modelled as a closed inductive type; the
`weight : float` field is inert for the engine (only encumbrance, outside
the claims, reads it) and is carried as a rational. -/
inductive EquipmentItem where
  | weapon (name : String) (description : Option String) (weight : ℚ)
      (damage : Int) (weapon_type : String)
  | armor (name : String) (description : Option String) (weight : ℚ)
      (armor_points : Int) (location : String)
  | plain (name : String) (description : Option String) (weight : ℚ)
deriving DecidableEq

/-- `isinstance(item, Weapon)`. -/
def EquipmentItem.isWeapon : EquipmentItem → Bool
  | .weapon _ _ _ _ _ => true
  | _ => false

/-- The `damage` field of a `Weapon`; `0` for non-weapons (never used on
non-weapons by the engine, which filters with `isinstance` first). -/
def EquipmentItem.damage : EquipmentItem → Int
  | .weapon _ _ _ d _ => d
  | _ => 0

/-- From `character_sheet.py` (`CombatStats`).  The source line
`max_wounds = int = 0` is a Python slip creating a class attribute, not a
dataclass field, so it is not part of the per-instance state. -/
structure CombatStats where
  initiative : Int := 0
  advantage : Int := 0
  wounds : Int := 0
  mana_points : Int := 0
  speed : Int := 0
  walk : Int := 0
  run : Int := 0
  armor_points : Int := 0
deriving DecidableEq

/-- From `character_sheet.py` (`Character`). -/
structure Character where
  identifier : String
  personal_info : PersonalInfo
  character_role : CharacterRole
  characteristics : Characteristics
  points : Points := {}
  experience : Experience := {}
  skills : Skills := {}
  talents : List Talent := []
  physical_mutations : List Mutation := []
  mental_mutations : List Mutation := []
  equipment : List EquipmentItem := []
  combat_stats : CombatStats := {}
  conditions : List Condition := []
  special_effects : List SpecialEffect := []
  wealth : Int := 0
  encumbrance : ℚ := 0
  spells : List String := []
deriving DecidableEq

/-- From `battle.py` (`DamageType`). -/
inductive DamageType where
  | NORMAL
  | IGNORE_ARMOR
  | PURE
deriving DecidableEq

/-- From `battle.py` (`Combatant`).  `status : Dict[str, Any]` is inert
for the whole engine and is carried as an association list. -/
structure Combatant where
  character : Character
  team : String
  initiative : Int := 0
  position : Int × Int := (0, 0)
  status : List (String × String) := []
  is_active : Bool := true
deriving DecidableEq

instance : Inhabited Combatant :=
  ⟨{ character :=
      { identifier := ""
        personal_info := { name := "" }
        character_role := {}
        characteristics := {} }
     team := "" }⟩

/-- `Combatant.is_conscious` (battle.py lines 45-49):
`self.character.combat_stats.wounds > 0`. -/
def Combatant.is_conscious (c : Combatant) : Bool :=
  0 < c.character.combat_stats.wounds

/-- Battle-level fields of `Battle.__init__`.  `turn_order` holds
references into the roster, modelled as indices. -/
structure BattleState where
  combatants : List Combatant
  round_number : Int := 0
  turn_order : List Nat := []
deriving DecidableEq

/-- The process-wide random generator: an oracle stream plus a cursor. -/
structure Rng where
  stream : Nat → Int
  idx : Nat

/-- `random.randint(lo, hi)`: draws the next oracle value and advances
the cursor.  The bounds `lo`/`hi` document the requested range; theorems
that depend on the range assume it of the relevant stream elements. -/
def randint (lo hi : Int) (g : Rng) : Int × Rng :=
  (g.stream g.idx, { g with idx := g.idx + 1 })

/-- The interactive `input(...)` source: an oracle stream of strings. -/
structure Inp where
  stream : Nat → String
  idx : Nat

/-- One `input(...)` call: the next oracle string, cursor advanced. -/
def readInput (i : Inp) : String × Inp :=
  (i.stream i.idx, { i with idx := i.idx + 1 })

/-- Observable log.  One constructor per logger call site of the engine
in `battle.py` (the interactive menu prompts are not individually
recorded; they carry no engine state). -/
inductive Event where
  | battleBegins
  | attackAnnounce (attacker defender : String)
  | hitEv (roll ws : Int)
  | missedEv (roll ws : Int)
  | parryAttempt (name : String) (roll ws : Int)
  | dodgeAttempt (name : String) (roll agility : Int)
  | specialAttempt (name : String)
  | defendedEv (name : String)
  | defenseFailedEv (name : String)
  | unknownDefenseWarn (name : String)
  | damageTaken (name : String) (dmg newWounds : Int)
  | noWeaponWarn (name : String)
  | movedTo (name : String) (src dst : Int × Int)
  | defensiveStance (name : String)
  | useSkillEv (name skill : String)
  | executingTurn (idx : Nat)
  | unconsciousSkip (idx : Nat)
  | roundBanner (n : Int)
  | battleOverEv
  | battleEnded
  | initiativeOrderHeader
  | initiativeEntry (posn : Nat) (name : String) (ini : Int)
  | rolledInitiative (name : String) (ini : Int)
  | playerTurnHeader (name : String)
  | noTargets (name : String)
  | invalidChoiceWarn
deriving DecidableEq

/-- The full mutable world: battle state, both oracles, and the log. -/
structure Sys where
  battle : BattleState
  rng : Rng
  inp : Inp
  log : List Event

/-- Append one log event (a logger call). -/
def logE (e : Event) (s : Sys) : Sys :=
  { s with log := s.log ++ [e] }

/-- Replace the rng after a draw. -/
def setRng (g : Rng) (s : Sys) : Sys :=
  { s with rng := g }

/-- Replace the input cursor after a read. -/
def setInp (i : Inp) (s : Sys) : Sys :=
  { s with inp := i }

/-- The combatant a reference (index) designates. -/
def Sys.comb (s : Sys) (i : Nat) : Combatant :=
  s.battle.combatants.getD i default

/-- Overwrite the combatant designated by a reference (index). -/
def setComb (i : Nat) (c : Combatant) (s : Sys) : Sys :=
  { s with battle := { s.battle with combatants := s.battle.combatants.set i c } }

/-- The display name of a character. -/
def Character.name (c : Character) : String :=
  c.personal_info.name

/-- `AttackAction.get_equipped_weapon` (battle.py lines 278-280): the
first `Weapon` in the equipment list, if any. -/
def get_equipped_weapon (character : Character) : Option EquipmentItem :=
  (character.equipment.filter EquipmentItem.isWeapon).head?

/-- `AttackAction.calculate_net_damage_static` (battle.py lines 282-297). -/
def calculate_net_damage_static (defender : Character) (base_damage : Int)
    (damage_type : DamageType) : Int :=
  let toughness_bonus := defender.characteristics.toughness.fdiv 10
  let armor_points := defender.combat_stats.armor_points
  let damage_reduction :=
    match damage_type with
    | DamageType.NORMAL => toughness_bonus + armor_points
    | DamageType.IGNORE_ARMOR => toughness_bonus
    | DamageType.PURE => 0
  max (base_damage - damage_reduction) 0

/-- `Combatant.find_target` (battle.py lines 116-125): the comprehension
`[c for c in battle.combatants if c.team != self.team and c.is_conscious()]`
followed by `enemies[0] if enemies else None`. -/
def find_target (b : BattleState) (self : Combatant) : Option Combatant :=
  (b.combatants.filter (fun c => c.team ≠ self.team ∧ c.is_conscious)).head?

/-- Position of the first element satisfying `p`. -/
def findFirstIdx (p : Combatant → Bool) : List Combatant → Option Nat
  | [] => none
  | c :: rest => if p c then some 0 else (findFirstIdx p rest).map (· + 1)

/-- The reference (index) form of `find_target`: the position in the
roster of the first conscious opposing-team combatant.  Python hands the
object reference around; the index is its model (the agreement with the
value form `find_target` is part of the C10 theorem). -/
def find_target_idx (b : BattleState) (self : Combatant) : Option Nat :=
  findFirstIdx (fun c => c.team ≠ self.team ∧ c.is_conscious) b.combatants

/-- `Combatant.get_ai_defense_choice` (battle.py lines 155-166). -/
def get_ai_defense_choice (self : Combatant) : String :=
  let parry_skill := self.character.characteristics.weapon_skill
  let dodge_skill := self.character.characteristics.agility
  if dodge_skill ≤ parry_skill then "parry" else "dodge"

/-- `Combatant.get_player_defense_choice` (battle.py lines 136-153):
one `input(...)` read, mapped to a method, invalid input defaulting to
dodge. -/
def get_player_defense_choice (self : Combatant) (s : Sys) : String × Sys :=
  let (choice, i2) := readInput s.inp
  let s2 := setInp i2 s
  if choice = "1" then ("parry", s2)
  else if choice = "2" then ("dodge", s2)
  else if choice = "3" then ("special", s2)
  else ("dodge", logE .invalidChoiceWarn s2)

/-- `Combatant.decide_defense_method` (battle.py lines 127-134). -/
def decide_defense_method (self : Combatant) (s : Sys) : String × Sys :=
  if self.character.character_role.is_player_character then
    get_player_defense_choice self s
  else
    (get_ai_defense_choice self, s)

/-- `Battle.is_battle_over` (battle.py lines 367-378), the pure
condition: the deduplicated list of team identifiers of combatants that
are both active and conscious has length at most one (a Python `set` is
modelled by `dedup`).  The `logger.info` fired when it returns true is
modelled at the call site in `battle_loop`. -/
def is_battle_over (b : BattleState) : Bool :=
  let active_teams :=
    ((b.combatants.filter (fun c => c.is_active ∧ c.is_conscious)).map
      (fun c => c.team)).dedup
  active_teams.length ≤ 1

/-- `AttackAction.attempt_parry` (battle.py lines 233-240): one [1,100]
draw, succeeds iff it is at most the defender's weapon skill.  (The
`attacker_ws` argument is passed by the source and unused, as there.) -/
def attempt_parry (defender : Character) (attacker_ws : Int) (s : Sys) :
    Bool × Sys :=
  let defender_ws := defender.characteristics.weapon_skill
  let (parry_roll, g2) := randint 1 100 s.rng
  let s2 := logE (.parryAttempt defender.name parry_roll defender_ws) (setRng g2 s)
  (parry_roll ≤ defender_ws, s2)

/-- `AttackAction.attempt_dodge` (battle.py lines 242-250): one [1,100]
draw, succeeds iff it is at most the defender's agility. -/
def attempt_dodge (defender : Character) (s : Sys) : Bool × Sys :=
  let defender_agility := defender.characteristics.agility
  let (dodge_roll, g2) := randint 1 100 s.rng
  let s2 := logE (.dodgeAttempt defender.name dodge_roll defender_agility) (setRng g2 s)
  (dodge_roll ≤ defender_agility, s2)

/-- `AttackAction.attempt_special_defense` (battle.py lines 252-259):
always fails. -/
def attempt_special_defense (defender : Character) (s : Sys) : Bool × Sys :=
  (false, logE (.specialAttempt defender.name) s)

/-- Lines 211-221 of `AttackAction.execute`: the defender chooses a
defense method and the corresponding attempt is resolved; an
unrecognized method logs a warning and leaves `defense_success` false. -/
def resolveDefense (target : Combatant) (attacker_ws : Int) (s : Sys) :
    Bool × Sys :=
  let (defense_method, s2) := decide_defense_method target s
  if defense_method = "parry" then
    attempt_parry target.character attacker_ws s2
  else if defense_method = "dodge" then
    attempt_dodge target.character s2
  else if defense_method = "special" then
    attempt_special_defense target.character s2
  else
    (false, logE (.unknownDefenseWarn target.character.name) s2)

/-- The exception raised at line 272 of battle.py: `apply_damage` calls
`self.calculate_net_damage(...)`, but the class defines only
`calculate_net_damage_static`, so Python raises `AttributeError` at the
attribute lookup, before any state is mutated. -/
def attrErrMsg : String :=
  "AttributeError: AttackAction object has no attribute calculate_net_damage"

/-- `AttackAction.apply_damage` (battle.py lines 261-276), acting on the
roster through the attacker and target references.  With a weapon
equipped, the source computes `base_damage` and then, at line 272,
invokes the nonexistent method `self.calculate_net_damage`: the
`AttributeError` is modelled as an exceptional return, and the
subsequent wound-clamping write (line 273) is unreachable.  With no
weapon, a warning is logged and the call returns normally. -/
def apply_damage (actorIdx targetIdx : Nat) (damage_type : DamageType)
    (s : Sys) : Sys × Option String :=
  let attacker := (s.comb actorIdx).character
  let defender := (s.comb targetIdx).character
  match get_equipped_weapon attacker with
  | some weapon =>
    let base_damage0 := weapon.damage + attacker.characteristics.strength.fdiv 10
    let base_damage :=
      if attacker.talents.any (fun talent => talent.name = "Strike Mighty Blow") then
        base_damage0 + 1
      else base_damage0
    (s, some attrErrMsg)
  | none =>
    (logE (.noWeaponWarn attacker.name) s, none)

/-- `AttackAction.execute` (battle.py lines 194-231): hit roll, defense
selection and resolution, then damage application. -/
def AttackAction_execute (actorIdx targetIdx : Nat)
    (damage_type : DamageType) (s : Sys) : Sys × Option String :=
  let attacker := (s.comb actorIdx).character
  let defender := (s.comb targetIdx).character
  let s1 := logE (.attackAnnounce attacker.name defender.name) s
  let (attack_roll, g2) := randint 1 100 s1.rng
  let s2 := setRng g2 s1
  let attacker_ws := attacker.characteristics.weapon_skill
  if attack_roll ≤ attacker_ws then
    let s3 := logE (.hitEv attack_roll attacker_ws) s2
    let dres := resolveDefense (s3.comb targetIdx) attacker_ws s3
    if dres.1 then
      (logE (.defendedEv defender.name) dres.2, none)
    else
      apply_damage actorIdx targetIdx damage_type
        (logE (.defenseFailedEv defender.name) dres.2)
  else
    (logE (.missedEv attack_roll attacker_ws) s2, none)

/-- The action variants of `battle.py` (`MoveAction`, `AttackAction`,
`DefendAction`, `UseSkillAction`), as the tagged union they form.  The
source class is called `Action`; that name is taken by Mathlib, hence
`BattleAction`.  The `actor` common field is supplied at execution time
as the acting reference, and combatant references are indices. -/
inductive BattleAction where
  | attack (targetIdx : Nat) (damage_type : DamageType)
  | move (destination : Int × Int)
  | defend
  | useSkill (skill_name : String)
deriving DecidableEq

/-- `Combatant.get_ai_action` (battle.py lines 104-114): attack the
first available enemy with Normal damage, else defend. -/
def get_ai_action (b : BattleState) (self : Combatant) : BattleAction :=
  match find_target_idx b self with
  | some target => .attack target DamageType.NORMAL
  | none => .defend

/-- `Combatant.get_player_action` (battle.py lines 62-102): one action
choice read; for an attack, a target search and a damage-type read;
invalid choices default to Defend (and Normal damage). -/
def get_player_action (self : Combatant) (s : Sys) : BattleAction × Sys :=
  let s0 := logE (.playerTurnHeader self.character.name) s
  let (choice, i2) := readInput s0.inp
  let s1 := setInp i2 s0
  if choice = "1" then
    match find_target_idx s1.battle self with
    | some target =>
      let (damage_choice, i3) := readInput s1.inp
      let s2 := setInp i3 s1
      if damage_choice = "1" then (.attack target DamageType.NORMAL, s2)
      else if damage_choice = "2" then (.attack target DamageType.IGNORE_ARMOR, s2)
      else if damage_choice = "3" then (.attack target DamageType.PURE, s2)
      else (.attack target DamageType.NORMAL, logE .invalidChoiceWarn s2)
    | none => (.defend, logE (.noTargets self.character.name) s1)
  else if choice = "2" then
    (.move (0, 0), s1)
  else if choice = "3" then
    (.defend, s1)
  else
    (.defend, logE .invalidChoiceWarn s1)

/-- `Combatant.decide_action` (battle.py lines 51-60). -/
def decide_action (selfIdx : Nat) (s : Sys) : BattleAction × Sys :=
  let self := s.comb selfIdx
  if self.character.character_role.is_player_character then
    get_player_action self s
  else
    (get_ai_action s.battle self, s)

/-- Execution of one action by the actor (`execute` of each `Action`
subclass; `MoveAction.execute` is battle.py lines 182-187,
`DefendAction.execute` lines 300-305, `UseSkillAction.execute` lines
307-315). -/
def BattleAction.exec (actorIdx : Nat) (a : BattleAction) (s : Sys) :
    Sys × Option String :=
  match a with
  | .attack targetIdx damage_type =>
    AttackAction_execute actorIdx targetIdx damage_type s
  | .move destination =>
    let actor := s.comb actorIdx
    let s1 := logE (.movedTo actor.character.name actor.position destination) s
    (setComb actorIdx { actor with position := destination } s1, none)
  | .defend =>
    (logE (.defensiveStance (s.comb actorIdx).character.name) s, none)
  | .useSkill skill_name =>
    (logE (.useSkillEv (s.comb actorIdx).character.name skill_name) s, none)

/-- `Battle.execute_turn` (battle.py lines 359-365). -/
def execute_turn (combatantIdx : Nat) (s : Sys) : Sys × Option String :=
  let s1 := logE (.executingTurn combatantIdx) s
  let (action, s2) := decide_action combatantIdx s1
  action.exec combatantIdx s2

/-- The loop body of `Battle.execute_round` (battle.py lines 349-357):
iterate the given references in order; an active and conscious
combatant gets a turn; an unconscious one is logged as skipped; an
inactive conscious one is silently skipped.  An exception raised by a
turn aborts the iteration (propagates). -/
def runTurns (s : Sys) : List Nat → Sys × Option String
  | [] => (s, none)
  | i :: rest =>
    let combatant := s.comb i
    if combatant.is_active ∧ combatant.is_conscious then
      match execute_turn i s with
      | (s1, none) => runTurns s1 rest
      | (s1, some e) => (s1, some e)
    else if ¬ combatant.is_conscious then
      runTurns (logE (.unconsciousSkip i) s) rest
    else
      runTurns s rest

/-- `Battle.execute_round` (battle.py lines 349-357). -/
def execute_round (s : Sys) : Sys × Option String :=
  runTurns s s.battle.turn_order

/-- `Combatant.roll_initiative` (battle.py lines 31-43), acting on the
roster through the combatant reference: one [1,10] draw added to the
base initiative characteristic, +10 for a Combat Reflexes talent. -/
def roll_initiative (i : Nat) (s : Sys) : Sys :=
  let self := s.comb i
  let base_initiative := self.character.characteristics.initiative
  let (roll, g2) := randint 1 10 s.rng
  let ini0 := base_initiative + roll
  let ini :=
    if self.character.talents.any (fun talent => talent.name = "Combat Reflexes") then
      ini0 + 10
    else ini0
  logE (.rolledInitiative self.character.name ini)
    (setComb i { self with initiative := ini } (setRng g2 s))

/-- The sort key comparison of `Battle.determine_initiative`:
`sorted(self.combatants, key=lambda c: c.initiative, reverse=True)` is
Python's stable sort, descending on `initiative`.  On references
(indices), a reference comes no later than another when its combatant's
initiative is no smaller. -/
def initKeyLe (cs : List Combatant) (a b : Nat) : Bool :=
  decide ((cs.getD b default).initiative ≤ (cs.getD a default).initiative)

/-- The first half of `Battle.determine_initiative` (battle.py lines
341-342): `for combatant in self.combatants: combatant.roll_initiative()`,
each iteration consuming one draw, in roster order. -/
def rollPhase (s : Sys) : Sys :=
  (List.range s.battle.combatants.length).foldl
    (fun acc i => roll_initiative i acc) s

/-- Insertion step of a stable sort on references. -/
def orderedInsertIdx (le : Nat → Nat → Bool) (a : Nat) : List Nat → List Nat
  | [] => [a]
  | b :: l => if le a b then a :: b :: l else b :: orderedInsertIdx le a l

/-- Stable sort on references.  Python's `sorted` is a stable sort, and
for a total preorder the stable sort of a list is unique (it is the
permutation that is sorted and keeps ties in input order — the three
properties proved for this function in the C4 theorem), so insertion
sort models `sorted(..., key=..., reverse=True)` exactly; it is chosen
over `List.mergeSort` for being structurally recursive. -/
def insertionSortIdx (le : Nat → Nat → Bool) : List Nat → List Nat
  | [] => []
  | a :: l => orderedInsertIdx le a (insertionSortIdx le l)

/-- `Battle.determine_initiative` (battle.py lines 336-347): every
combatant rolls initiative (`rollPhase`), then `turn_order` becomes the
roster stably sorted by initiative descending. -/
def determine_initiative (s : Sys) : Sys :=
  let s1 := rollPhase s
  let ord :=
    insertionSortIdx (initKeyLe s1.battle.combatants)
      (List.range s1.battle.combatants.length)
  let s2 := { s1 with battle := { s1.battle with turn_order := ord } }
  let s3 := logE .initiativeOrderHeader s2
  (ord.enum).foldl
    (fun acc p =>
      logE (.initiativeEntry (p.1 + 1) ((acc.comb p.2).character.name)
        ((acc.comb p.2).initiative)) acc) s3

/-- The `while not self.is_battle_over()` loop of `Battle.start_battle`
(battle.py lines 330-333), with fuel: `none` means the loop has not
terminated within `fuel` rounds.  The over-condition is evaluated once
per iteration, at the round boundary; a normal exit appends the
battle-over log line (the `logger.info` inside `is_battle_over`); an
exception from a round aborts the loop. -/
def battle_loop : Nat → Sys → Option (Sys × Option String)
  | 0, _ => none
  | fuel + 1, s =>
    if is_battle_over s.battle then
      some (logE .battleOverEv s, none)
    else
      let s1 := logE (.roundBanner s.battle.round_number) s
      match execute_round s1 with
      | (s2, some e) => some (s2, some e)
      | (s2, none) =>
        battle_loop fuel
          { s2 with battle := { s2.battle with
              round_number := s2.battle.round_number + 1 } }

/-- The state reached by `Battle.start_battle` (battle.py lines 323-329)
just before its round loop: initiative determined and
`round_number = 1`. -/
def postInit (s : Sys) : Sys :=
  let s1 := logE .battleBegins s
  let s2 := determine_initiative s1
  { s2 with battle := { s2.battle with round_number := 1 } }

/-- `Battle.start_battle` (battle.py lines 323-334). -/
def start_battle (fuel : Nat) (s : Sys) : Option (Sys × Option String) :=
  match battle_loop fuel (postInit s) with
  | some (s4, none) => some (logE .battleEnded s4, none)
  | r => r

/-- The set of distinct team identifiers among combatants that are both
active and conscious (the spec's reading of the over-condition). -/
def activeTeams (b : BattleState) : Finset String :=
  ((b.combatants.filter (fun c => c.is_active ∧ c.is_conscious)).map
    (fun c => c.team)).toFinset

/-- A combatant with only its wounds value replaced: the frame shape of
damage application. -/
def withWounds (c : Combatant) (w : Int) : Combatant :=
  { c with character := { c.character with
      combat_stats := { c.character.combat_stats with wounds := w } } }

@[simp] theorem logE_battle (e : Event) (s : Sys) : (logE e s).battle = s.battle := rfl

@[simp] theorem logE_rng (e : Event) (s : Sys) : (logE e s).rng = s.rng := rfl

@[simp] theorem logE_inp (e : Event) (s : Sys) : (logE e s).inp = s.inp := rfl

@[simp] theorem logE_log (e : Event) (s : Sys) : (logE e s).log = s.log ++ [e] := rfl

@[simp] theorem setRng_battle (g : Rng) (s : Sys) : (setRng g s).battle = s.battle := rfl

@[simp] theorem setRng_inp (g : Rng) (s : Sys) : (setRng g s).inp = s.inp := rfl

@[simp] theorem setRng_log (g : Rng) (s : Sys) : (setRng g s).log = s.log := rfl

@[simp] theorem setRng_rng (g : Rng) (s : Sys) : (setRng g s).rng = g := rfl

@[simp] theorem setInp_battle (i : Inp) (s : Sys) : (setInp i s).battle = s.battle := rfl

@[simp] theorem setInp_rng (i : Inp) (s : Sys) : (setInp i s).rng = s.rng := rfl

@[simp] theorem setInp_log (i : Inp) (s : Sys) : (setInp i s).log = s.log := rfl

@[simp] theorem comb_logE (e : Event) (s : Sys) (i : Nat) :
    (logE e s).comb i = s.comb i := rfl

@[simp] theorem comb_setRng (g : Rng) (s : Sys) (i : Nat) :
    (setRng g s).comb i = s.comb i := rfl

@[simp] theorem comb_setInp (j : Inp) (s : Sys) (i : Nat) :
    (setInp j s).comb i = s.comb i := rfl

theorem battle_get_player_defense_choice (c : Combatant) (s : Sys) :
    ((get_player_defense_choice c s).2).battle = s.battle := by
  simp only [get_player_defense_choice, readInput]
  split_ifs <;> rfl

theorem battle_decide_defense_method (c : Combatant) (s : Sys) :
    ((decide_defense_method c s).2).battle = s.battle := by
  simp only [decide_defense_method]
  split
  · exact battle_get_player_defense_choice c s
  · rfl

theorem battle_attempt_parry (d : Character) (aws : Int) (s : Sys) :
    ((attempt_parry d aws s).2).battle = s.battle := rfl

theorem battle_attempt_dodge (d : Character) (s : Sys) :
    ((attempt_dodge d s).2).battle = s.battle := rfl

theorem battle_attempt_special (d : Character) (s : Sys) :
    ((attempt_special_defense d s).2).battle = s.battle := rfl

theorem battle_resolveDefense (t : Combatant) (aws : Int) (s : Sys) :
    ((resolveDefense t aws s).2).battle = s.battle := by
  simp only [resolveDefense]
  rcases h : decide_defense_method t s with ⟨m, s2⟩
  have hb : s2.battle = s.battle := by
    have := battle_decide_defense_method t s
    rw [h] at this; exact this
  split_ifs <;>
    simp only [battle_attempt_parry, battle_attempt_dodge,
      battle_attempt_special, logE_battle, hb]

theorem battle_apply_damage (a t : Nat) (dt : DamageType) (s : Sys) :
    ((apply_damage a t dt s).1).battle = s.battle := by
  simp only [apply_damage]
  split <;> rfl

theorem battle_attack_execute (a t : Nat) (dt : DamageType) (s : Sys) :
    ((AttackAction_execute a t dt s).1).battle = s.battle := by
  simp only [AttackAction_execute, randint]
  split_ifs <;>
    simp [battle_apply_damage, battle_resolveDefense]

/-- `s'` was reached from `s` by only appending log events. -/
def LogExt (s s' : Sys) : Prop := ∃ t, s'.log = s.log ++ t

theorem LogExt.rfl (s : Sys) : LogExt s s := ⟨[], by simp⟩

theorem LogExt.trans {s1 s2 s3 : Sys} (h1 : LogExt s1 s2) (h2 : LogExt s2 s3) :
    LogExt s1 s3 := by
  obtain ⟨t1, h1⟩ := h1
  obtain ⟨t2, h2⟩ := h2
  exact ⟨t1 ++ t2, by simp [h2, h1]⟩

theorem LogExt.mem {s s' : Sys} {e : Event} (h : LogExt s s') (he : e ∈ s.log) :
    e ∈ s'.log := by
  obtain ⟨t, ht⟩ := h
  simp [ht, he]

theorem logext_logE (e : Event) (s : Sys) : LogExt s (logE e s) := ⟨[e], rfl⟩

theorem logext_setRng (g : Rng) (s : Sys) : LogExt s (setRng g s) := ⟨[], by simp⟩

theorem logext_setInp (i : Inp) (s : Sys) : LogExt s (setInp i s) := ⟨[], by simp⟩

theorem logext_get_player_defense_choice (c : Combatant) (s : Sys) :
    LogExt s ((get_player_defense_choice c s).2) := by
  simp only [get_player_defense_choice, readInput]
  split_ifs <;>
    first
      | exact logext_setInp _ _
      | exact (logext_setInp _ _).trans (logext_logE _ _)

theorem logext_decide_defense_method (c : Combatant) (s : Sys) :
    LogExt s ((decide_defense_method c s).2) := by
  simp only [decide_defense_method]
  split
  · exact logext_get_player_defense_choice c s
  · exact LogExt.rfl s

theorem logext_attempt_parry (d : Character) (aws : Int) (s : Sys) :
    LogExt s ((attempt_parry d aws s).2) :=
  (logext_setRng _ _).trans (logext_logE _ _)

theorem logext_attempt_dodge (d : Character) (s : Sys) :
    LogExt s ((attempt_dodge d s).2) :=
  (logext_setRng _ _).trans (logext_logE _ _)

theorem logext_attempt_special (d : Character) (s : Sys) :
    LogExt s ((attempt_special_defense d s).2) :=
  logext_logE _ _

theorem logext_resolveDefense (t : Combatant) (aws : Int) (s : Sys) :
    LogExt s ((resolveDefense t aws s).2) := by
  simp only [resolveDefense]
  rcases h : decide_defense_method t s with ⟨m, s2⟩
  have hext : LogExt s s2 := by
    have := logext_decide_defense_method t s
    rw [h] at this; exact this
  split_ifs <;>
    first
      | exact hext.trans (logext_attempt_parry _ _ _)
      | exact hext.trans (logext_attempt_dodge _ _)
      | exact hext.trans (logext_attempt_special _ _)
      | exact hext.trans (logext_logE _ _)

theorem logext_apply_damage (a t : Nat) (dt : DamageType) (s : Sys) :
    LogExt s ((apply_damage a t dt s).1) := by
  simp only [apply_damage]
  split
  · exact LogExt.rfl s
  · exact logext_logE _ _

theorem comb_congr {s1 s2 : Sys} (h : s1.battle = s2.battle) (i : Nat) :
    s1.comb i = s2.comb i := by
  simp [Sys.comb, h]

/-- The state of the attack pipeline just after a successful hit roll:
the announcement and hit lines are logged and one rng draw is consumed. -/
def afterHit (actorIdx targetIdx : Nat) (s : Sys) : Sys :=
  logE (.hitEv (s.rng.stream s.rng.idx)
      (s.comb actorIdx).character.characteristics.weapon_skill)
    (setRng ⟨s.rng.stream, s.rng.idx + 1⟩
      (logE (.attackAnnounce (s.comb actorIdx).character.name
        (s.comb targetIdx).character.name) s))

theorem attack_execute_miss_eq (a t : Nat) (dt : DamageType) (s : Sys)
    (hmiss : ¬ s.rng.stream s.rng.idx ≤
      (s.comb a).character.characteristics.weapon_skill) :
    AttackAction_execute a t dt s =
      (logE (.missedEv (s.rng.stream s.rng.idx)
          (s.comb a).character.characteristics.weapon_skill)
        (setRng ⟨s.rng.stream, s.rng.idx + 1⟩
          (logE (.attackAnnounce (s.comb a).character.name
            (s.comb t).character.name) s)), none) := by
  simp only [AttackAction_execute, randint, logE_rng]
  rw [if_neg hmiss]

theorem attack_execute_hit_eq (a t : Nat) (dt : DamageType) (s : Sys)
    (hhit : s.rng.stream s.rng.idx ≤
      (s.comb a).character.characteristics.weapon_skill) :
    AttackAction_execute a t dt s =
      (if (resolveDefense (s.comb t)
            (s.comb a).character.characteristics.weapon_skill
            (afterHit a t s)).1 then
        (logE (.defendedEv (s.comb t).character.name)
          (resolveDefense (s.comb t)
            (s.comb a).character.characteristics.weapon_skill
            (afterHit a t s)).2, none)
      else
        apply_damage a t dt
          (logE (.defenseFailedEv (s.comb t).character.name)
            (resolveDefense (s.comb t)
              (s.comb a).character.characteristics.weapon_skill
              (afterHit a t s)).2)) := by
  simp only [AttackAction_execute, randint, logE_rng, afterHit, comb_logE, comb_setRng]
  rw [if_pos hhit]

theorem logext_afterHit (a t : Nat) (s : Sys) : LogExt s (afterHit a t s) :=
  ((logext_logE _ _).trans (logext_setRng _ _)).trans (logext_logE _ _)

theorem logext_attack_execute (a t : Nat) (dt : DamageType) (s : Sys) :
    LogExt s ((AttackAction_execute a t dt s).1) := by
  by_cases h : s.rng.stream s.rng.idx ≤
      (s.comb a).character.characteristics.weapon_skill
  · rw [attack_execute_hit_eq a t dt s h]
    have hbase : LogExt s ((resolveDefense (s.comb t)
        (s.comb a).character.characteristics.weapon_skill (afterHit a t s)).2) :=
      (logext_afterHit a t s).trans (logext_resolveDefense _ _ _)
    split
    · exact hbase.trans (logext_logE _ _)
    · exact (hbase.trans (logext_logE _ _)).trans (logext_apply_damage _ _ _ _)
  · rw [attack_execute_miss_eq a t dt s h]
    exact ((logext_logE _ _).trans (logext_setRng _ _)).trans (logext_logE _ _)

theorem attack_execute_hit_mem (a t : Nat) (dt : DamageType) (s : Sys)
    (hhit : s.rng.stream s.rng.idx ≤
      (s.comb a).character.characteristics.weapon_skill) :
    Event.hitEv (s.rng.stream s.rng.idx)
      (s.comb a).character.characteristics.weapon_skill ∈
      (AttackAction_execute a t dt s).1.log := by
  rw [attack_execute_hit_eq a t dt s hhit]
  have h1 : Event.hitEv (s.rng.stream s.rng.idx)
      (s.comb a).character.characteristics.weapon_skill ∈ (afterHit a t s).log := by
    simp [afterHit]
  have h2 := (logext_resolveDefense (s.comb t)
    (s.comb a).character.characteristics.weapon_skill (afterHit a t s)).mem h1
  split
  · exact (logext_logE _ _).mem h2
  · exact (logext_apply_damage _ _ _ _).mem ((logext_logE _ _).mem h2)

theorem apply_damage_no_weapon (a t : Nat) (dt : DamageType) (s : Sys)
    (h : get_equipped_weapon (s.comb a).character = none) :
    apply_damage a t dt s = (logE (.noWeaponWarn (s.comb a).character.name) s, none) := by
  simp [apply_damage, h]

theorem apply_damage_with_weapon (a t : Nat) (dt : DamageType) (s : Sys)
    (w : EquipmentItem) (h : get_equipped_weapon (s.comb a).character = some w) :
    apply_damage a t dt s = (s, some attrErrMsg) := by
  simp [apply_damage, h]

/-- **C1** — For every attack resolution, the hit roll is one [1,100]
draw and the attack hits iff the roll is at most the attacker's weapon
skill; on a miss the resolution ends (return value `none`, a miss line
logged, exactly the one draw consumed) with no combatant state changed;
in particular with weapon skill 0 every attack misses and the defender
is untouched. -/
theorem C1_hit_roll_semantics (s : Sys) (a t : Nat) (dt : DamageType)
    (hroll : 1 ≤ s.rng.stream s.rng.idx) :
    (Event.hitEv (s.rng.stream s.rng.idx)
        (s.comb a).character.characteristics.weapon_skill ∈
        (AttackAction_execute a t dt s).1.log ↔
      (s.rng.stream s.rng.idx ≤ (s.comb a).character.characteristics.weapon_skill ∨
        Event.hitEv (s.rng.stream s.rng.idx)
          (s.comb a).character.characteristics.weapon_skill ∈ s.log)) ∧
    (¬ s.rng.stream s.rng.idx ≤ (s.comb a).character.characteristics.weapon_skill →
      AttackAction_execute a t dt s =
        (logE (.missedEv (s.rng.stream s.rng.idx)
            (s.comb a).character.characteristics.weapon_skill)
          (setRng ⟨s.rng.stream, s.rng.idx + 1⟩
            (logE (.attackAnnounce (s.comb a).character.name
              (s.comb t).character.name) s)), none)) ∧
    ((s.comb a).character.characteristics.weapon_skill = 0 →
      (AttackAction_execute a t dt s).2 = none ∧
      (AttackAction_execute a t dt s).1.battle = s.battle ∧
      Event.missedEv (s.rng.stream s.rng.idx) 0 ∈
        (AttackAction_execute a t dt s).1.log) := by
  refine ⟨?_, ?_, ?_⟩
  · constructor
    · intro h
      by_cases hhit : s.rng.stream s.rng.idx ≤
          (s.comb a).character.characteristics.weapon_skill
      · exact Or.inl hhit
      · right
        rw [attack_execute_miss_eq a t dt s hhit] at h
        simpa using h
    · rintro (hhit | hmem)
      · exact attack_execute_hit_mem a t dt s hhit
      · exact (logext_attack_execute a t dt s).mem hmem
  · intro hmiss
    exact attack_execute_miss_eq a t dt s hmiss
  · intro hws
    have hmiss : ¬ s.rng.stream s.rng.idx ≤
        (s.comb a).character.characteristics.weapon_skill := by
      rw [hws]; omega
    rw [attack_execute_miss_eq a t dt s hmiss]
    refine ⟨rfl, by simp, ?_⟩
    rw [hws]
    simp

/-- Concrete instance for `C1_hit_roll_semantics`: a weapon-skill-0
attacker, stream value 55: the attack misses and nothing changes. -/
def w1Sys : Sys :=
  { battle :=
      { combatants :=
          [ { character :=
                { identifier := "a0"
                  personal_info := { name := "Attacker" }
                  character_role := { is_player_character := false }
                  characteristics := { weapon_skill := 0 }
                  combat_stats := { wounds := 10 } }
              team := "A" }
          , { character :=
                { identifier := "d0"
                  personal_info := { name := "Defender" }
                  character_role := { is_player_character := false }
                  characteristics := {}
                  combat_stats := { wounds := 10 } }
              team := "B" } ]
        round_number := 1
        turn_order := [0, 1] }
    rng := ⟨fun _ => 55, 0⟩
    inp := ⟨fun _ => "", 0⟩
    log := [] }

theorem C1_hit_roll_semantics_witness :
    (AttackAction_execute 0 1 DamageType.NORMAL w1Sys).2 = none ∧
    (AttackAction_execute 0 1 DamageType.NORMAL w1Sys).1.battle = w1Sys.battle ∧
    Event.missedEv 55 0 ∈ (AttackAction_execute 0 1 DamageType.NORMAL w1Sys).1.log :=
  (C1_hit_roll_semantics w1Sys 0 1 DamageType.NORMAL (by decide)).2.2 (by decide)

/-- **C5** — For every combatant, `is_conscious()` holds iff wounds are
strictly positive (an equivalence about the state itself, so it holds
before and after every attack resolution); the net damage the engine
computes is never negative; and an attack resolution never takes a
combatant's wounds below zero. -/
theorem C5_consciousness_and_clamping :
    (∀ c : Combatant, c.is_conscious = true ↔ 0 < c.character.combat_stats.wounds) ∧
    (∀ (d : Character) (b : Int) (dt : DamageType),
      0 ≤ calculate_net_damage_static d b dt) ∧
    (∀ (s : Sys) (a t : Nat) (dt : DamageType) (j : Nat),
      0 ≤ (s.comb j).character.combat_stats.wounds →
      0 ≤ (((AttackAction_execute a t dt s).1).comb j).character.combat_stats.wounds) := by
  refine ⟨?_, ?_, ?_⟩
  · intro c
    simp [Combatant.is_conscious]
  · intro d b dt
    exact le_max_right _ _
  · intro s a t dt j hw
    rw [comb_congr (battle_attack_execute a t dt s) j]
    exact hw

theorem C5_consciousness_and_clamping_witness :
    (0:Int) ≤ (((AttackAction_execute 0 1 DamageType.NORMAL w1Sys).1).comb 1).character.combat_stats.wounds ∧
    ((w1Sys.comb 1).is_conscious = true ↔ 0 < (w1Sys.comb 1).character.combat_stats.wounds) ∧
    (0:Int) ≤ calculate_net_damage_static (w1Sys.comb 1).character 9 DamageType.NORMAL :=
  ⟨C5_consciousness_and_clamping.2.2 w1Sys 0 1 DamageType.NORMAL 1 (by decide),
   C5_consciousness_and_clamping.1 (w1Sys.comb 1),
   C5_consciousness_and_clamping.2.1 (w1Sys.comb 1).character 9 DamageType.NORMAL⟩

/-- **C6** — On a hit, the chosen defense resolves with one [1,100]
draw: a parry succeeds iff the draw is at most the defender's weapon
skill, a dodge iff it is at most the defender's agility, the special
defense always fails; and a successful defense fully negates the attack
(normal return, battle state unchanged). -/
theorem C6_defense_resolution :
    (∀ (d : Character) (aws : Int) (s : Sys),
      ((attempt_parry d aws s).1 = true ↔
        s.rng.stream s.rng.idx ≤ d.characteristics.weapon_skill)) ∧
    (∀ (d : Character) (s : Sys),
      ((attempt_dodge d s).1 = true ↔
        s.rng.stream s.rng.idx ≤ d.characteristics.agility)) ∧
    (∀ (d : Character) (s : Sys), (attempt_special_defense d s).1 = false) ∧
    (∀ (s : Sys) (a t : Nat) (dt : DamageType),
      s.rng.stream s.rng.idx ≤ (s.comb a).character.characteristics.weapon_skill →
      (resolveDefense (s.comb t)
        (s.comb a).character.characteristics.weapon_skill (afterHit a t s)).1 = true →
      (AttackAction_execute a t dt s).2 = none ∧
      (AttackAction_execute a t dt s).1.battle = s.battle) := by
  refine ⟨?_, ?_, ?_, ?_⟩
  · intro d aws s
    simp [attempt_parry, randint]
  · intro d s
    simp [attempt_dodge, randint]
  · intro d s
    rfl
  · intro s a t dt hhit hdef
    rw [attack_execute_hit_eq a t dt s hhit]
    rw [if_pos hdef]
    refine ⟨rfl, ?_⟩
    rw [logE_battle, battle_resolveDefense]
    simp [afterHit]

/-- Concrete instance for `C6_defense_resolution`: the automated
defender (weapon skill 60 ≥ agility 30) parries; the stream value 50
hits (attacker weapon skill 80) and the parry succeeds (50 ≤ 60). -/
def w6Sys : Sys :=
  { battle :=
      { combatants :=
          [ { character :=
                { identifier := "a6"
                  personal_info := { name := "Attacker" }
                  character_role := { is_player_character := false }
                  characteristics := { weapon_skill := 80, strength := 40 }
                  equipment := [.weapon "Sword" none 3 5 "melee"]
                  combat_stats := { wounds := 12 } }
              team := "A" }
          , { character :=
                { identifier := "d6"
                  personal_info := { name := "Defender" }
                  character_role := { is_player_character := false }
                  characteristics := { weapon_skill := 60, agility := 30 }
                  combat_stats := { wounds := 12 } }
              team := "B" } ]
        round_number := 1
        turn_order := [0, 1] }
    rng := ⟨fun _ => 50, 0⟩
    inp := ⟨fun _ => "", 0⟩
    log := [] }

theorem C6_defense_resolution_witness :
    (AttackAction_execute 0 1 DamageType.NORMAL w6Sys).2 = none ∧
    (AttackAction_execute 0 1 DamageType.NORMAL w6Sys).1.battle = w6Sys.battle :=
  C6_defense_resolution.2.2.2 w6Sys 0 1 DamageType.NORMAL (by decide) (by decide)

/-- **C8** — An attack by a weaponless attacker never changes the
battle state, never surfaces a failure (the return is always normal),
and on the path that reaches damage application (hit with failed
defense) it logs the no-weapon notice. -/
theorem C8_no_weapon_nonfatal (s : Sys) (a t : Nat) (dt : DamageType)
    (hweap : get_equipped_weapon (s.comb a).character = none) :
    (AttackAction_execute a t dt s).2 = none ∧
    (AttackAction_execute a t dt s).1.battle = s.battle ∧
    (s.rng.stream s.rng.idx ≤ (s.comb a).character.characteristics.weapon_skill →
      (resolveDefense (s.comb t)
        (s.comb a).character.characteristics.weapon_skill (afterHit a t s)).1 = false →
      Event.noWeaponWarn (s.comb a).character.name ∈
        (AttackAction_execute a t dt s).1.log) := by
  by_cases hhit : s.rng.stream s.rng.idx ≤
      (s.comb a).character.characteristics.weapon_skill
  · rw [attack_execute_hit_eq a t dt s hhit]
    rcases hdef : (resolveDefense (s.comb t)
        (s.comb a).character.characteristics.weapon_skill (afterHit a t s)).1 with _ | _
    · rw [if_neg (by simp [hdef])]
      have hbattle : (logE (.defenseFailedEv (s.comb t).character.name)
          (resolveDefense (s.comb t)
            (s.comb a).character.characteristics.weapon_skill
            (afterHit a t s)).2).battle = s.battle := by
        rw [logE_battle, battle_resolveDefense]
        simp [afterHit]
      have hcomb : ((logE (.defenseFailedEv (s.comb t).character.name)
          (resolveDefense (s.comb t)
            (s.comb a).character.characteristics.weapon_skill
            (afterHit a t s)).2).comb a) = s.comb a := comb_congr hbattle a
      rw [apply_damage_no_weapon _ _ _ _ (by rw [hcomb]; exact hweap)]
      refine ⟨rfl, by simpa using hbattle, ?_⟩
      intro _ _
      simp [hcomb]
    · rw [if_pos (by simp [hdef])]
      refine ⟨rfl, ?_, ?_⟩
      · rw [logE_battle, battle_resolveDefense]
        simp [afterHit]
      · intro _ hdef'
        exact Bool.noConfusion hdef'
  · rw [attack_execute_miss_eq a t dt s hhit]
    refine ⟨rfl, by simp, ?_⟩
    intro hhit'
    exact absurd hhit' hhit

/-- Concrete instance for `C8_no_weapon_nonfatal`: weapon skill 100,
no equipment; the automated defender (skills 0) parries and fails
(roll 50), so the no-weapon notice path is reached. -/
def w8Sys : Sys :=
  { battle :=
      { combatants :=
          [ { character :=
                { identifier := "a8"
                  personal_info := { name := "Attacker" }
                  character_role := { is_player_character := false }
                  characteristics := { weapon_skill := 100, strength := 40 }
                  equipment := []
                  combat_stats := { wounds := 12 } }
              team := "A" }
          , { character :=
                { identifier := "d8"
                  personal_info := { name := "Defender" }
                  character_role := { is_player_character := false }
                  characteristics := {}
                  combat_stats := { wounds := 12 } }
              team := "B" } ]
        round_number := 1
        turn_order := [0, 1] }
    rng := ⟨fun _ => 50, 0⟩
    inp := ⟨fun _ => "", 0⟩
    log := [] }

theorem C8_no_weapon_nonfatal_witness :
    (AttackAction_execute 0 1 DamageType.NORMAL w8Sys).2 = none ∧
    Event.noWeaponWarn "Attacker" ∈
      (AttackAction_execute 0 1 DamageType.NORMAL w8Sys).1.log :=
  have h := C8_no_weapon_nonfatal w8Sys 0 1 DamageType.NORMAL (by decide)
  ⟨h.1, h.2.2 (by decide) (by decide)⟩

/-- **C9** — An attack resolution changes at most the target's wounds:
round number, turn order, roster length, and every combatant other than
the target are untouched, and the target itself agrees with its old
value on everything but the wounds field.  (In this code the damage
write is never even reached, because the damage path raises before it,
so the frame bound holds a fortiori.) -/
theorem C9_attack_frame (s : Sys) (a t : Nat) (dt : DamageType) :
    ((AttackAction_execute a t dt s).1).battle.round_number = s.battle.round_number ∧
    ((AttackAction_execute a t dt s).1).battle.turn_order = s.battle.turn_order ∧
    ((AttackAction_execute a t dt s).1).battle.combatants.length =
      s.battle.combatants.length ∧
    (∀ j, j ≠ t →
      ((AttackAction_execute a t dt s).1).comb j = s.comb j) ∧
    ((AttackAction_execute a t dt s).1).comb t =
      withWounds (s.comb t)
        ((((AttackAction_execute a t dt s).1).comb t).character.combat_stats.wounds) := by
  have hb := battle_attack_execute a t dt s
  refine ⟨by rw [hb], by rw [hb], by rw [hb], ?_, ?_⟩
  · intro j _
    exact comb_congr hb j
  · rw [comb_congr hb t]
    rfl

theorem C9_attack_frame_witness :
    ((AttackAction_execute 0 1 DamageType.NORMAL w6Sys).1).comb 0 = w6Sys.comb 0 ∧
    ((AttackAction_execute 0 1 DamageType.NORMAL w6Sys).1).battle.turn_order =
      w6Sys.battle.turn_order :=
  ⟨(C9_attack_frame w6Sys 0 1 DamageType.NORMAL).2.2.2.1 0 (by decide),
   (C9_attack_frame w6Sys 0 1 DamageType.NORMAL).2.1⟩

theorem head?_filter_eq_findFirstIdx (p : Combatant → Bool) (l : List Combatant) :
    (l.filter p).head? = (findFirstIdx p l).map (fun i => l.getD i default) := by
  induction l with
  | nil => rfl
  | cons c rest ih =>
    by_cases h : p c
    · simp [findFirstIdx, List.filter_cons, h]
    · rw [List.filter_cons_of_neg (by simpa using h), ih]
      rw [show findFirstIdx p (c :: rest) = (findFirstIdx p rest).map (· + 1) by
        simp [findFirstIdx, h]]
      rw [Option.map_map]
      rcases findFirstIdx p rest with _ | i <;> simp

theorem findFirstIdx_some (p : Combatant → Bool) (l : List Combatant) (i : Nat)
    (h : findFirstIdx p l = some i) :
    i < l.length ∧ p (l.getD i default) = true ∧
      ∀ j, j < i → p (l.getD j default) = false := by
  induction l generalizing i with
  | nil => cases h
  | cons c rest ih =>
    by_cases hc : p c
    · simp [findFirstIdx, hc] at h
      subst h
      exact ⟨by simp, by simpa using hc, fun j hj => absurd hj (by omega)⟩
    · simp [findFirstIdx, hc] at h
      obtain ⟨i0, hi0, rfl⟩ := h
      obtain ⟨hlen, hpi, hprev⟩ := ih i0 hi0
      refine ⟨by simpa using hlen, by simpa using hpi, ?_⟩
      intro j hj
      cases j with
      | zero => simpa using hc
      | succ j0 =>
        rw [List.getD_cons_succ]
        exact hprev j0 (by omega)

theorem findFirstIdx_none (p : Combatant → Bool) (l : List Combatant) :
    findFirstIdx p l = none ↔ ∀ c ∈ l, p c = false := by
  induction l with
  | nil => simp [findFirstIdx]
  | cons c rest ih =>
    by_cases hc : p c
    · simp [findFirstIdx, hc]
    · simp [findFirstIdx, hc, ih]

/-- Concrete roster for the is_active-is-ignored part of C10: the only
enemy is conscious but inactive, and the automated action choice still
attacks it. -/
def w10Battle : BattleState :=
  { combatants :=
      [ { character :=
            { identifier := "s10"
              personal_info := { name := "Self" }
              character_role := { is_player_character := false }
              characteristics := { weapon_skill := 50 }
              combat_stats := { wounds := 10 } }
          team := "A" }
      , { character :=
            { identifier := "t10"
              personal_info := { name := "Inactive" }
              character_role := { is_player_character := false }
              characteristics := {}
              combat_stats := { wounds := 7 } }
          team := "B"
          is_active := false } ]
    round_number := 1
    turn_order := [0, 1] }

/-- **C10** — `find_target` returns the first combatant in roster order
on an opposing team that is conscious (the predicate never reads
`is_active`), returns nothing exactly when no such combatant exists,
and the automated action choice attacks the found reference — including
a conscious combatant whose `is_active` flag is false. -/
theorem C10_find_target_first_conscious_enemy :
    (∀ (b : BattleState) (self : Combatant),
      find_target b self = (find_target_idx b self).map
        (fun i => b.combatants.getD i default)) ∧
    (∀ (b : BattleState) (self : Combatant) (i : Nat),
      find_target_idx b self = some i →
        i < b.combatants.length ∧
        ((b.combatants.getD i default).team ≠ self.team ∧
          (b.combatants.getD i default).is_conscious = true) ∧
        ∀ j, j < i →
          ¬((b.combatants.getD j default).team ≠ self.team ∧
            (b.combatants.getD j default).is_conscious = true)) ∧
    (∀ (b : BattleState) (self : Combatant),
      find_target b self = none ↔
        ∀ c ∈ b.combatants, ¬(c.team ≠ self.team ∧ c.is_conscious = true)) ∧
    (∀ (b : BattleState) (self : Combatant) (i : Nat),
      find_target_idx b self = some i →
        get_ai_action b self = .attack i DamageType.NORMAL) ∧
    (find_target w10Battle (w10Battle.combatants.getD 0 default) =
        some (w10Battle.combatants.getD 1 default) ∧
      (w10Battle.combatants.getD 1 default).is_active = false ∧
      (w10Battle.combatants.getD 1 default).is_conscious = true ∧
      get_ai_action w10Battle (w10Battle.combatants.getD 0 default) =
        .attack 1 DamageType.NORMAL) := by
  refine ⟨?_, ?_, ?_, ?_, by decide⟩
  · intro b self
    exact head?_filter_eq_findFirstIdx _ _
  · intro b self i h
    obtain ⟨hlen, hp, hprev⟩ := findFirstIdx_some _ _ _ h
    refine ⟨hlen, by simpa using hp, ?_⟩
    intro j hj
    have := hprev j hj
    simpa using this
  · intro b self
    rw [find_target, head?_filter_eq_findFirstIdx]
    constructor
    · intro h
      rcases hf : findFirstIdx (fun c => c.team ≠ self.team ∧ c.is_conscious)
          b.combatants with _ | i
      · intro c hc
        have := (findFirstIdx_none _ _).mp hf c hc
        simpa using this
      · rw [hf] at h
        simp at h
    · intro h
      rw [(findFirstIdx_none _ _).mpr ?_]
      · rfl
      · intro c hc
        have := h c hc
        simpa using this
  · intro b self i h
    simp [get_ai_action, h]

theorem C10_find_target_first_conscious_enemy_witness :
    find_target_idx w10Battle (w10Battle.combatants.getD 0 default) = some 1 ∧
    (1 < w10Battle.combatants.length ∧
      ((w10Battle.combatants.getD 1 default).team ≠
          (w10Battle.combatants.getD 0 default).team ∧
        (w10Battle.combatants.getD 1 default).is_conscious = true) ∧
      ∀ j, j < 1 →
        ¬((w10Battle.combatants.getD j default).team ≠
            (w10Battle.combatants.getD 0 default).team ∧
          (w10Battle.combatants.getD j default).is_conscious = true)) ∧
    get_ai_action w10Battle (w10Battle.combatants.getD 0 default) =
      .attack 1 DamageType.NORMAL :=
  ⟨by decide,
   C10_find_target_first_conscious_enemy.2.1 w10Battle
     (w10Battle.combatants.getD 0 default) 1 (by decide),
   C10_find_target_first_conscious_enemy.2.2.2.1 w10Battle
     (w10Battle.combatants.getD 0 default) 1 (by decide)⟩

/-- Scenario A of the spec, concretely: attacker weapon skill 100,
strength 40, equipped weapon of damage 5, no damage talent; defender a
player character choosing dodge (input "2") with agility 0, toughness 0,
armor 0, wounds 12.  The stream value 50 makes the attack hit and the
dodge fail. -/
def w2Sys : Sys :=
  { battle :=
      { combatants :=
          [ { character :=
                { identifier := "a2"
                  personal_info := { name := "Attacker" }
                  character_role := { is_player_character := false }
                  characteristics := { weapon_skill := 100, strength := 40 }
                  equipment := [.weapon "Sword" none 3 5 "melee"]
                  combat_stats := { wounds := 12 } }
              team := "A" }
          , { character :=
                { identifier := "d2"
                  personal_info := { name := "Defender" }
                  character_role := { is_player_character := true }
                  characteristics := { agility := 0, toughness := 0 }
                  combat_stats := { wounds := 12, armor_points := 0 } }
              team := "B" } ]
        round_number := 1
        turn_order := [0, 1] }
    rng := ⟨fun _ => 50, 0⟩
    inp := ⟨fun _ => "2", 0⟩
    log := [] }

/-- **C2** — On the spec's Scenario A (hit, failed dodge, equipped
weapon of damage 5, strength 40, toughness 0, armor 0) the claimed
net damage is indeed 9 by the engine's own damage formula
(`calculate_net_damage_static`, with base damage 5 + 40 // 10 = 9), but
the attack resolution never applies it: line 272 of battle.py calls the
nonexistent `self.calculate_net_damage`, so the resolution raises
`AttributeError` and the defender's wounds stay at 12 instead of
dropping to 3. -/
theorem C2_damage_path_raises_attribute_error :
    (AttackAction_execute 0 1 DamageType.NORMAL w2Sys).2 = some attrErrMsg ∧
    (((AttackAction_execute 0 1 DamageType.NORMAL w2Sys).1).comb 1).character.combat_stats.wounds = 12 ∧
    (EquipmentItem.weapon "Sword" none 3 5 "melee").damage +
      (w2Sys.comb 0).character.characteristics.strength.fdiv 10 = 9 ∧
    calculate_net_damage_static (w2Sys.comb 1).character 9 DamageType.NORMAL = 9 := by
  decide

/-- Two automated combatants: index 0 (team A, weapon skill 100, armed)
acts first, hits, the defender's parry (weapon skill 0) fails, and the
damage path raises; index 1 (team B) is active and conscious throughout
but the round aborts before its turn. -/
def w7Sys : Sys :=
  { battle :=
      { combatants :=
          [ { character :=
                { identifier := "a7"
                  personal_info := { name := "First" }
                  character_role := { is_player_character := false }
                  characteristics := { weapon_skill := 100, strength := 40 }
                  equipment := [.weapon "Sword" none 3 5 "melee"]
                  combat_stats := { wounds := 12 } }
              team := "A" }
          , { character :=
                { identifier := "d7"
                  personal_info := { name := "Second" }
                  character_role := { is_player_character := false }
                  characteristics := {}
                  combat_stats := { wounds := 12 } }
              team := "B" } ]
        round_number := 1
        turn_order := [0, 1] }
    rng := ⟨fun _ => 50, 0⟩
    inp := ⟨fun _ => "", 0⟩
    log := [] }

/-- **C7** — A concrete round in which the dispatch-time eligibility
claim fails on the code as written: combatant 0 gets its turn, its
attack reaches the damage path and raises `AttributeError`, the round
aborts, and combatant 1 — active and conscious at every moment of the
round — never receives a turn. -/
theorem C7_round_aborts_before_eligible_turn :
    (execute_round w7Sys).2 = some attrErrMsg ∧
    Event.executingTurn 0 ∈ ((execute_round w7Sys).1).log ∧
    Event.executingTurn 1 ∉ ((execute_round w7Sys).1).log ∧
    (((execute_round w7Sys).1).comb 1).is_active = true ∧
    (((execute_round w7Sys).1).comb 1).is_conscious = true := by
  decide


theorem perm_orderedInsertIdx (le : Nat → Nat → Bool) (a : Nat) (l : List Nat) :
    (orderedInsertIdx le a l).Perm (a :: l) := by
  induction l with
  | nil => exact List.Perm.refl _
  | cons b l ih =>
    rw [orderedInsertIdx]
    split_ifs
    · exact List.Perm.refl _
    · exact (ih.cons b).trans (List.Perm.swap a b l)

theorem perm_insertionSortIdx (le : Nat → Nat → Bool) (l : List Nat) :
    (insertionSortIdx le l).Perm l := by
  induction l with
  | nil => exact List.Perm.refl _
  | cons a l ih =>
    exact (perm_orderedInsertIdx le a _).trans (ih.cons a)

theorem pairwise_orderedInsertIdx (le : Nat → Nat → Bool)
    (htot : ∀ a b, (le a b || le b a) = true)
    (htrans : ∀ a b c, le a b = true → le b c = true → le a c = true)
    (a : Nat) (l : List Nat) (hl : l.Pairwise (fun x y => le x y = true)) :
    (orderedInsertIdx le a l).Pairwise (fun x y => le x y = true) := by
  induction l with
  | nil => simp [orderedInsertIdx]
  | cons b l ih =>
    rw [orderedInsertIdx]
    rcases List.pairwise_cons.mp hl with ⟨hb, hl'⟩
    split_ifs with hab
    · refine List.pairwise_cons.mpr ⟨?_, hl⟩
      intro x hx
      rcases List.mem_cons.mp hx with rfl | hx'
      · exact hab
      · exact htrans a b x hab (hb x hx')
    · have hba : le b a = true := by
        rcases Bool.or_eq_true_iff.mp (htot a b) with h | h
        · exact absurd h hab
        · exact h
      refine List.pairwise_cons.mpr ⟨?_, ih hl'⟩
      intro x hx
      rcases List.mem_cons.mp ((perm_orderedInsertIdx le a l).subset hx)
        with rfl | hx'
      · exact hba
      · exact hb x hx'

theorem pairwise_insertionSortIdx (le : Nat → Nat → Bool)
    (htot : ∀ a b, (le a b || le b a) = true)
    (htrans : ∀ a b c, le a b = true → le b c = true → le a c = true)
    (l : List Nat) :
    (insertionSortIdx le l).Pairwise (fun x y => le x y = true) := by
  induction l with
  | nil => simp [insertionSortIdx]
  | cons a l ih =>
    exact pairwise_orderedInsertIdx le htot htrans a _ ih

theorem filter_orderedInsertIdx (cs : List Combatant) (v : Int) (a : Nat)
    (l : List Nat) :
    (orderedInsertIdx (initKeyLe cs) a l).filter
        (fun i => decide ((cs.getD i default).initiative = v)) =
      if (cs.getD a default).initiative = v then
        a :: l.filter (fun i => decide ((cs.getD i default).initiative = v))
      else l.filter (fun i => decide ((cs.getD i default).initiative = v)) := by
  induction l with
  | nil =>
    by_cases h : (cs.getD a default).initiative = v <;>
      simp_all [orderedInsertIdx, List.filter_cons]
  | cons b l ih =>
    rw [orderedInsertIdx]
    by_cases hab : initKeyLe cs a b = true
    · rw [if_pos hab]
      by_cases ha : (cs.getD a default).initiative = v <;>
        simp_all [List.filter_cons]
    · rw [if_neg hab]
      have hba : (cs.getD a default).initiative < (cs.getD b default).initiative := by
        simp only [initKeyLe, decide_eq_true_eq] at hab
        omega
      by_cases ha : (cs.getD a default).initiative = v
      · have hbv : ¬ ((cs.getD b default).initiative = v) := by omega
        simp_all [List.filter_cons]
      · by_cases hb : (cs.getD b default).initiative = v <;>
          simp_all [List.filter_cons]

theorem filter_insertionSortIdx (cs : List Combatant) (v : Int) (l : List Nat) :
    (insertionSortIdx (initKeyLe cs) l).filter
        (fun i => decide ((cs.getD i default).initiative = v)) =
      l.filter (fun i => decide ((cs.getD i default).initiative = v)) := by
  induction l with
  | nil => rfl
  | cons a l ih =>
    rw [insertionSortIdx, filter_orderedInsertIdx]
    by_cases h : (cs.getD a default).initiative = v <;>
      simp_all [List.filter_cons]

theorem pair_sublist_of_pairwise_lt {i j : Nat} {l : List Nat}
    (hs : l.Pairwise (· < ·)) (hi : i ∈ l) (hj : j ∈ l) (hij : i < j) :
    [i, j].Sublist l := by
  induction l with
  | nil => cases hi
  | cons a l ih =>
    rcases List.pairwise_cons.mp hs with ⟨ha, hs'⟩
    rcases List.mem_cons.mp hi with rfl | hi'
    · have hj' : j ∈ l := by
        rcases List.mem_cons.mp hj with rfl | h
        · omega
        · exact h
      exact List.Sublist.cons₂ i (List.singleton_sublist.mpr hj')
    · have hj' : j ∈ l := by
        rcases List.mem_cons.mp hj with rfl | h
        · have := ha i hi'
          omega
        · exact h
      exact (ih hs' hi' hj').cons a

theorem range_map_getD (l : List Combatant) :
    (List.range l.length).map (fun i => l.getD i default) = l := by
  apply List.ext_getElem
  · simp
  · intro n h1 h2
    simp only [List.getElem_map, List.getElem_range]
    rw [List.getD_eq_getElem l default h2]

theorem battle_logFold (l : List (Nat × Nat)) (s : Sys) :
    ((l.foldl
      (fun acc p =>
        logE (.initiativeEntry (p.1 + 1) ((acc.comb p.2).character.name)
          ((acc.comb p.2).initiative)) acc) s)).battle = s.battle := by
  induction l generalizing s with
  | nil => rfl
  | cons p rest ih =>
    rw [List.foldl_cons, ih]
    rfl

theorem determine_initiative_battle (s : Sys) :
    (determine_initiative s).battle =
      { combatants := (rollPhase s).battle.combatants
        round_number := (rollPhase s).battle.round_number
        turn_order :=
          insertionSortIdx (initKeyLe (rollPhase s).battle.combatants)
            (List.range (rollPhase s).battle.combatants.length) } := by
  simp only [determine_initiative, battle_logFold, logE_battle]

theorem initKeyLe_trans (cs : List Combatant) :
    ∀ a b c, initKeyLe cs a b = true → initKeyLe cs b c = true →
      initKeyLe cs a c = true := by
  intro a b c h1 h2
  simp only [initKeyLe, decide_eq_true_eq] at *
  omega

theorem initKeyLe_total (cs : List Combatant) :
    ∀ a b, (initKeyLe cs a b || initKeyLe cs b a) = true := by
  intro a b
  simp only [initKeyLe, Bool.or_eq_true, decide_eq_true_eq]
  exact Int.le_total _ _

/-- **C4** — After `determine_initiative`, `turn_order` (read back as
combatants through the references) is a permutation of the roster,
sorted by initiative in descending order, and references with equal
initiative appear in the original roster order (stability: a pair
`i < j` with equal rolled initiative occurs as the subsequence `[i, j]`
of `turn_order`, in that order). -/
theorem C4_turn_order_stable_sort (s : Sys) :
    ((determine_initiative s).battle.turn_order.map
        (fun i => (determine_initiative s).battle.combatants.getD i default)).Perm
      (determine_initiative s).battle.combatants ∧
    List.Pairwise (fun x y : Combatant => y.initiative ≤ x.initiative)
      ((determine_initiative s).battle.turn_order.map
        (fun i => (determine_initiative s).battle.combatants.getD i default)) ∧
    (∀ i j : Nat, i < j → j < (determine_initiative s).battle.combatants.length →
      ((determine_initiative s).battle.combatants.getD i default).initiative =
        ((determine_initiative s).battle.combatants.getD j default).initiative →
      [i, j].Sublist (determine_initiative s).battle.turn_order) := by
  rw [determine_initiative_battle]
  refine ⟨?_, ?_, ?_⟩
  · have hperm := (perm_insertionSortIdx
      (initKeyLe (rollPhase s).battle.combatants)
      (List.range (rollPhase s).battle.combatants.length)).map
      (fun i => (rollPhase s).battle.combatants.getD i default)
    rw [range_map_getD] at hperm
    exact hperm
  · have hsorted := pairwise_insertionSortIdx
      (initKeyLe (rollPhase s).battle.combatants)
      (initKeyLe_total (rollPhase s).battle.combatants)
      (initKeyLe_trans (rollPhase s).battle.combatants)
      (List.range (rollPhase s).battle.combatants.length)
    exact List.Pairwise.map _
      (fun a b h => by
        simp only [initKeyLe, decide_eq_true_eq] at h
        exact h)
      hsorted
  · intro i j hij hjn heq
    have hjn' : j < (rollPhase s).battle.combatants.length := by simpa using hjn
    have heq' : ((rollPhase s).battle.combatants.getD i default).initiative =
        ((rollPhase s).battle.combatants.getD j default).initiative := by
      simpa using heq
    have h1 := filter_insertionSortIdx (rollPhase s).battle.combatants
      (((rollPhase s).battle.combatants.getD i default).initiative)
      (List.range (rollPhase s).battle.combatants.length)
    have hpw : ((List.range (rollPhase s).battle.combatants.length).filter
        (fun k => decide ((((rollPhase s).battle.combatants.getD k default).initiative =
          (((rollPhase s).battle.combatants.getD i default).initiative))))).Pairwise
        (· < ·) :=
      List.Pairwise.sublist (List.filter_sublist _) (List.pairwise_lt_range _)
    have h2 : [i, j].Sublist
        ((List.range (rollPhase s).battle.combatants.length).filter
          (fun k => decide ((((rollPhase s).battle.combatants.getD k default).initiative =
            (((rollPhase s).battle.combatants.getD i default).initiative))))) := by
      refine pair_sublist_of_pairwise_lt hpw ?_ ?_ hij
      · exact List.mem_filter.mpr ⟨List.mem_range.mpr (by omega),
          by simp only [decide_eq_true_eq]⟩
      · exact List.mem_filter.mpr ⟨List.mem_range.mpr hjn',
          by simp only [decide_eq_true_eq]; omega⟩
    rw [← h1] at h2
    exact h2.trans (List.filter_sublist _)

/-- Two-combatant roster with equal base initiative (and a constant
stream, so equal rolled initiative) for the stability witness. -/
def w4Sys : Sys :=
  { battle :=
      { combatants :=
          [ { character :=
                { identifier := "x4"
                  personal_info := { name := "Xavier" }
                  character_role := { is_player_character := false }
                  characteristics := { initiative := 30 }
                  combat_stats := { wounds := 10 } }
              team := "A" }
          , { character :=
                { identifier := "y4"
                  personal_info := { name := "Yara" }
                  character_role := { is_player_character := false }
                  characteristics := { initiative := 30 }
                  combat_stats := { wounds := 10 } }
              team := "B" } ]
        round_number := 0
        turn_order := [] }
    rng := ⟨fun _ => 5, 0⟩
    inp := ⟨fun _ => "", 0⟩
    log := [] }

theorem C4_turn_order_stable_sort_witness :
    [0, 1].Sublist (determine_initiative w4Sys).battle.turn_order ∧
    ((determine_initiative w4Sys).battle.turn_order.map
        (fun i => (determine_initiative w4Sys).battle.combatants.getD i default)).Perm
      (determine_initiative w4Sys).battle.combatants :=
  ⟨(C4_turn_order_stable_sort w4Sys).2.2 0 1 (by decide) (by decide) (by decide),
   (C4_turn_order_stable_sort w4Sys).1⟩

/-- **C3** — `is_battle_over` holds exactly when the set of distinct
team identifiers among active, conscious combatants has size at most
one; the round loop evaluates this condition only at round boundaries:
a normal exit of the loop happens exactly at a boundary where it holds,
at a boundary where it already holds the loop exits without executing
any round, and in particular `start_battle` evaluates it for the first
time right after initiative determination with `round_number = 1`,
executing no round when it already holds there. -/
theorem C3_battle_over_condition :
    (∀ b : BattleState, is_battle_over b = true ↔ (activeTeams b).card ≤ 1) ∧
    (∀ (fuel : Nat) (s s4 : Sys), battle_loop fuel s = some (s4, none) →
      is_battle_over s4.battle = true) ∧
    (∀ (fuel : Nat) (s : Sys), is_battle_over s.battle = true →
      battle_loop (fuel + 1) s = some (logE .battleOverEv s, none)) ∧
    (∀ (fuel : Nat) (s : Sys), is_battle_over (postInit s).battle = true →
      (postInit s).battle.round_number = 1 ∧
      start_battle (fuel + 1) s =
        some (logE .battleEnded (logE .battleOverEv (postInit s)), none)) := by
  have hover : ∀ (fuel : Nat) (s : Sys), is_battle_over s.battle = true →
      battle_loop (fuel + 1) s = some (logE .battleOverEv s, none) := by
    intro fuel s h
    rw [battle_loop, if_pos h]
  refine ⟨?_, ?_, hover, ?_⟩
  · intro b
    simp only [is_battle_over, activeTeams, List.card_toFinset,
      decide_eq_true_eq]
  · intro fuel
    induction fuel with
    | zero =>
      intro s s4 h
      cases h
    | succ n ih =>
      intro s s4 h
      rw [battle_loop] at h
      by_cases hov : is_battle_over s.battle = true
      · rw [if_pos hov] at h
        simp only [Option.some.injEq, Prod.mk.injEq] at h
        rw [← h.1]
        simpa using hov
      · rw [if_neg hov] at h
        rcases hr : execute_round (logE (.roundBanner s.battle.round_number) s)
          with ⟨s2, e⟩
        cases e with
        | none =>
          simp only [hr] at h
          exact ih _ s4 h
        | some err =>
          simp only [hr] at h
          simp at h
  · intro fuel s h
    refine ⟨rfl, ?_⟩
    rw [start_battle, hover fuel (postInit s) h]

/-- Scenario D of the spec, concretely: team A has one conscious
combatant, team B has one combatant already at zero wounds. -/
def wDSys : Sys :=
  { battle :=
      { combatants :=
          [ { character :=
                { identifier := "aD"
                  personal_info := { name := "Survivor" }
                  character_role := { is_player_character := false }
                  characteristics := { weapon_skill := 50, initiative := 30 }
                  combat_stats := { wounds := 10 } }
              team := "A" }
          , { character :=
                { identifier := "bD"
                  personal_info := { name := "Fallen" }
                  character_role := { is_player_character := false }
                  characteristics := { initiative := 40 }
                  combat_stats := { wounds := 0 } }
              team := "B" } ]
        round_number := 0
        turn_order := [] }
    rng := ⟨fun _ => 5, 0⟩
    inp := ⟨fun _ => "", 0⟩
    log := [] }

theorem C3_battle_over_condition_witness :
    is_battle_over (postInit wDSys).battle = true ∧
    (activeTeams (postInit wDSys).battle).card ≤ 1 ∧
    (postInit wDSys).battle.round_number = 1 ∧
    start_battle 1 wDSys =
      some (logE .battleEnded (logE .battleOverEv (postInit wDSys)), none) :=
  have h : is_battle_over (postInit wDSys).battle = true := by decide
  ⟨h, (C3_battle_over_condition.1 (postInit wDSys).battle).mp h,
   (C3_battle_over_condition.2.2.2 0 wDSys h).1,
   (C3_battle_over_condition.2.2.2 0 wDSys h).2⟩
